import Mathlib

/-!
# Shallow embedding of `zoom_meeting_summary.py`

This file embeds the core logic of the repository's single source file,
`src/zoom_meeting_summary.py`, and proves/refutes the specification claims
about it.

Modelling conventions:
* Timestamps that the Python code obtains from `dateutil.parser.parse` or
  `datetime.now()` are modelled as instants in integer epoch seconds
  (`Int`).  Claims quantify over already-parsed ("parseable") timestamps.
* The HTTP transport is an explicit parameter: a function from the request
  index to the response for that request.  A raised
  `requests.exceptions.RequestException` is an `Except.error`.
* `while True:` pagination loops are embedded with explicit fuel; the
  constructor `FetchResult.diverge` marks fuel exhaustion, so
  non-termination of the loop is `paginate ... = .diverge` for every fuel.
* Python truthiness tests on strings (`if cached_token:`,
  `if ... data["next_page_token"]:`) are embedded as an explicit
  "present and non-empty" test.
-/

/-! ## Token cache (lines 31-65)

The cache file `auth_cache.json` is modelled by its observable states:
absent, present-but-corrupt (not valid JSON, missing fields, or an
unparseable expiration — any state in which `json.load`,
`cache[...]` or `datetime.fromisoformat` raises), or a valid record
`{access_token, expiration}`. -/

deriving instance DecidableEq for Except

inductive CacheFile where
  | absent
  | corrupt
  | valid (access_token : String) (expiration : Int)
  deriving DecidableEq

/-- The uncaught exception raised by `load_cached_token` when the cache file
exists but `json.load` / key lookup / `fromisoformat` fails. -/
inductive CacheError where
  | parseError
  deriving DecidableEq

/-- Embeds `load_cached_token` (lines 47-55): if the file exists, parse it (a parse
failure raises — there is no `try` in the function), and return the token
iff the stored expiration is strictly later than now; otherwise `None`. -/
def load_cached_token (file : CacheFile) (now : Int) :
    Except CacheError (Option String) :=
  match file with
  | .absent => .ok none
  | .corrupt => .error .parseError
  | .valid tok expiration =>
    if now < expiration then .ok (some tok) else .ok none

/-- Embeds `save_token_to_cache` (lines 57-65): writes
`{access_token, expiration = now + expires_in}` over the cache file. -/
def save_token_to_cache (access_token : String) (expires_in : Int)
    (now : Int) : CacheFile :=
  .valid access_token (now + expires_in)

/-! ## Authenticator (lines 67-92) -/

/-- JSON body of a successful OAuth token response (the fields the code
reads). -/
structure OAuthResponse where
  access_token : String
  expires_in : Int
  deriving DecidableEq

inductive AuthError where
  | cacheCorrupt
  | exchangeFailed
  deriving DecidableEq

/-- Python truthiness of `load_cached_token`'s result: `if cached_token:`
is taken iff the value is not `None` and not the empty string. -/
def truthyToken : Option String → Bool
  | none => false
  | some t => !t.isEmpty

/-- Embeds `get_access_token` (lines 67-92).  `oauth` is the outcome of the
network exchange `session.post(...)` (error = any
`requests.exceptions.RequestException`, including a non-2xx status via
`raise_for_status`).  Returns the token together with the resulting cache
file state and the number of network authentication calls performed
(0 on a cache hit, 1 otherwise). -/
def get_access_token (oauth : Except Unit OAuthResponse) (now : Int)
    (cache : CacheFile) : Except AuthError (String × CacheFile × Nat) :=
  match load_cached_token cache now with
  | .error _ => .error .cacheCorrupt
  | .ok cached =>
    if truthyToken cached then
      .ok (cached.getD "", cache, 0)
    else
      match oauth with
      | .error _ => .error .exchangeFailed
      | .ok r =>
        .ok (r.access_token, save_token_to_cache r.access_token r.expires_in now, 1)

/-- Two successive calls of `get_access_token`, threading the cache file
state, at times `t1 ≤ t2`; returns both tokens, the final cache state and
the total number of network authentication calls. -/
def get_access_token_twice (oauth1 oauth2 : Except Unit OAuthResponse)
    (t1 t2 : Int) (cache : CacheFile) :
    Except AuthError (String × String × CacheFile × Nat) :=
  match get_access_token oauth1 t1 cache with
  | .error e => .error e
  | .ok (tok1, c1, n1) =>
    match get_access_token oauth2 t2 c1 with
    | .error e => .error e
    | .ok (tok2, c2, n2) => .ok (tok1, tok2, c2, n1 + n2)

/-! ## Participant duration (lines 183-187)

`calculate_participant_duration` parses both timestamps, subtracts, and
applies `int(total_seconds / 60)`.  Python's `int()` on a float truncates
toward zero, which on an exact integer number of seconds is T-division by
60, `Int.tdiv`. -/

def calculate_participant_duration (join_time leave_time : Int) : Int :=
  Int.tdiv (leave_time - join_time) 60

/-- Epoch seconds of `2024-01-01T10:00:00Z`. -/
def exampleJoin : Int := 1704103200

/-- Epoch seconds of `2024-01-01T10:45:30Z`. -/
def exampleLeave : Int := 1704105930

example : calculate_participant_duration exampleJoin exampleLeave = 45 := by decide
example : calculate_participant_duration exampleLeave exampleJoin = -45 := by decide
example : Int.fdiv (exampleJoin - exampleLeave) 60 = -46 := by decide

/-! ## Data model (fields the code consumes) -/

/-- A meeting record, with timestamps already parsed (`start_time` in epoch
seconds, `duration` = scheduled duration in minutes). -/
structure Meeting where
  id : String
  topic : String
  start_time : Int
  duration : Int
  deriving DecidableEq

/-- A participant record; `email` is `none` when the key is absent. -/
structure Participant where
  name : String
  email : Option String
  join_time : Int
  leave_time : Int
  deriving DecidableEq

/-! ## Cursor pagination (lines 126-181)

A page is the JSON body of one list response: its items together with the
`next_page_token` field (`none` when the key is absent; `some ""` when
present but empty).  The server is a function from the request index to
the page returned for that request (`Except.error` = the request raised).
The loops `while True: ...` in `get_meetings` and
`get_meeting_participants` are structurally identical; both are embedded
by `paginate`, with fuel for the unbounded loop. -/

structure Page (α : Type) where
  items : List α
  next_page_token : Option String
  deriving DecidableEq

/-- The loop-continuation test
`if "next_page_token" in data and data["next_page_token"]:` — the cursor
to inject into the next request when the token is present and non-empty,
else `none` (loop exits). -/
def pageContinue {α : Type} (p : Page α) : Option String :=
  match p.next_page_token with
  | some t => if t = "" then none else some t
  | none => none

/-- Outcome of a pagination loop: `ok items sent` = normal exit returning
`items`, having issued one request per entry of `sent` whose
`next_page_token` query parameter was that entry; `failed sent` = a
request raised (the partial items are discarded — the exception carries
none); `diverge` = the loop was still running when the fuel ran out. -/
inductive FetchResult (α : Type) where
  | ok (items : List α) (sent : List (Option String))
  | failed (sent : List (Option String))
  | diverge
  deriving DecidableEq

/-- One `while True:` pagination loop body, fuelled.  `i` is the request
index, `cursor` the `next_page_token` parameter of the next request,
`acc` the items accumulated so far, `sent` the cursors of requests already
issued. -/
def paginateAux {α : Type} (server : Nat → Except Unit (Page α)) :
    Nat → Nat → Option String → List α → List (Option String) →
    FetchResult α
  | 0, _, _, _, _ => .diverge
  | fuel + 1, i, cursor, acc, sent =>
    match server i with
    | .error _ => .failed (sent ++ [cursor])
    | .ok page =>
      match pageContinue page with
      | some t =>
        paginateAux server fuel (i + 1) (some t) (acc ++ page.items)
          (sent ++ [cursor])
      | none => .ok (acc ++ page.items) (sent ++ [cursor])

def paginate {α : Type} (server : Nat → Except Unit (Page α))
    (fuel : Nat) : FetchResult α :=
  paginateAux server fuel 0 none [] []

/-- Embeds `get_meetings` (lines 126-154): the pagination loop over
`GET /users/{userId}/meetings`; a `RequestException` on any page is
re-raised (`Exception("Failed to fetch meetings")`), discarding the
partially accumulated `meetings` list. -/
def get_meetings (server : Nat → Except Unit (Page Meeting))
    (fuel : Nat) : FetchResult Meeting :=
  paginate server fuel

/-- Embeds `get_meeting_participants` (lines 156-181): the pagination loop over
`GET /report/meetings/{meetingId}/participants`; a `RequestException` on
any page is caught and the function returns `[]`. -/
def get_meeting_participants (server : Nat → Except Unit (Page Participant))
    (fuel : Nat) : FetchResult Participant :=
  match paginate server fuel with
  | .failed s => .ok [] s
  | r => r

/-! ## Summarizer (lines 189-214) -/

/-- The record appended to `participant_summaries` for one participant
(lines 198-204): email defaults to `"N/A"` when absent, duration is the
formatted string `f"{duration} minutes"`. -/
structure ParticipantSummary where
  name : String
  email : String
  duration : String
  deriving DecidableEq

/-- One entry of the summary list (lines 206-212).  `start_time` and
`end_time` are kept as instants (the Python code formats them with
`strftime` for display); `end_time = start_time + timedelta(minutes =
scheduled_duration)`, i.e. `+ 60 * duration` seconds. -/
structure MeetingSummary where
  topic : String
  start_time : Int
  end_time : Int
  scheduled_duration : String
  participants : List ParticipantSummary
  deriving DecidableEq

def participantSummary (p : Participant) : ParticipantSummary :=
  { name := p.name
    email := p.email.getD "N/A"
    duration :=
      toString (calculate_participant_duration p.join_time p.leave_time)
        ++ " minutes" }

def summaryOf (m : Meeting) (parts : List Participant) : MeetingSummary :=
  { topic := m.topic
    start_time := m.start_time
    end_time := m.start_time + 60 * m.duration
    scheduled_duration := toString m.duration ++ " minutes"
    participants := parts.map participantSummary }

/-- Embeds `summarize_meetings` (lines 189-214): for each meeting in input order,
fetch its participants via `get_meeting_participants` (whose transport is
`pserver meeting.id`) and append one summary.  `none` = some participant
pagination loop ran out of fuel (`get_meeting_participants` itself never
raises: it catches fetch failures and returns `[]`). -/
def summarize_meetings
    (pserver : String → Nat → Except Unit (Page Participant))
    (fuel : Nat) : List Meeting → Option (List MeetingSummary)
  | [] => some []
  | m :: rest =>
    match get_meeting_participants (pserver m.id) fuel with
    | .ok parts _ =>
      match summarize_meetings pserver fuel rest with
      | some out => some (summaryOf m parts :: out)
      | none => none
    | _ => none

/-! ## HTTP retry configuration (lines 34-37)

`session = requests.Session()` is mounted, for `https://` URLs, with
`Retry(total=5, backoff_factor=0.1, status_forcelist=[500, 502, 503, 504])`.
Only calls made through `session` (`session.post` in `get_access_token`,
line 80, and `session.get` in `get_user_id`, line 100) go through this
adapter; `get_meeting_details` (line 117), `get_meetings` (line 140) and
`get_meeting_participants` (line 167) call `requests.get(...)`, which uses
a fresh default session with no retries.

The transport is a function from the attempt index to the HTTP status
returned for that attempt.  A request is a success iff its final status is
below 400 (`raise_for_status`). -/

def session_retry_total : Nat := 5

def session_backoff_factor : ℚ := 1 / 10

def status_forcelist : List Nat := [500, 502, 503, 504]

/-- The retry loop of the mounted `HTTPAdapter`: attempt the request; if
the status is in the forcelist and retries remain, back off and retry,
else return the last status.  Returns (number of attempts made, final
status). -/
def sessionRequestAux (transport : Nat → Nat) :
    Nat → Nat → Nat × Nat
  | 0, i => (i + 1, transport i)
  | r + 1, i =>
    if transport i ∈ status_forcelist then
      sessionRequestAux transport r (i + 1)
    else (i + 1, transport i)

/-- An HTTP request issued through the module-level `session`. -/
def session_request (transport : Nat → Nat) : Nat × Nat :=
  sessionRequestAux transport session_retry_total 0

/-- An HTTP request issued through plain `requests.get` (default adapter,
`max_retries = 0`): exactly one attempt, whatever the status. -/
def plain_request (transport : Nat → Nat) : Nat × Nat :=
  (1, transport 0)

/-- The transport used by each page request of `get_meetings` (line 140 is
`requests.get`, not `session.get`). -/
def meetings_request (transport : Nat → Nat) : Nat × Nat :=
  plain_request transport

/-- The transport used by each page request of `get_meeting_participants`
(line 167 is `requests.get`, not `session.get`). -/
def participants_request (transport : Nat → Nat) : Nat × Nat :=
  plain_request transport

/-- The transport of the scenario "503 twice, then 200". -/
def transport503 : Nat → Nat := fun i => if i < 2 then 503 else 200

example : session_request transport503 = (3, 200) := by decide
example : meetings_request transport503 = (1, 503) := by decide
example : session_request (fun _ => 404) = (1, 404) := by decide

/-! ## General pagination lemmas -/

theorem range_succ_flatMap {β : Type} (n : Nat) (g : Nat → List β) :
    (List.range (n + 1)).flatMap g
      = g 0 ++ (List.range n).flatMap (fun k => g (k + 1)) := by
  rw [List.range_succ_eq_map, List.flatMap_cons]
  simp [List.flatMap_map, Nat.succ_eq_add_one]

theorem range_succ_map {β : Type} (n : Nat) (g : Nat → β) :
    (List.range (n + 1)).map g
      = g 0 :: (List.range n).map (fun k => g (k + 1)) := by
  rw [List.range_succ_eq_map]
  simp [Nat.succ_eq_add_one, Function.comp]

/-- Running the pagination loop against an all-successful server whose
pages `i0, i0+1, …` continue for `n` steps and exit at page `i0 + n`:
the loop returns all items in page order, and the requests issued carry
the cursors `cursor, pageContinue (pages i0), …`. -/
theorem paginateAux_run {α : Type} (pages : Nat → Page α) :
    ∀ (n i0 : Nat) (cursor : Option String) (acc : List α)
      (sent : List (Option String)) (fuel : Nat), n + 1 ≤ fuel →
      (∀ k, k < n → pageContinue (pages (i0 + k)) ≠ none) →
      pageContinue (pages (i0 + n)) = none →
      paginateAux (fun i => .ok (pages i)) fuel i0 cursor acc sent =
        .ok (acc ++ (List.range (n + 1)).flatMap
              (fun k => (pages (i0 + k)).items))
          (sent ++ cursor ::
            (List.range n).map (fun k => pageContinue (pages (i0 + k)))) := by
  intro n
  induction n with
  | zero =>
    intro i0 cursor acc sent fuel hfuel _ hexit
    match fuel, hfuel with
    | f + 1, _ =>
      rw [Nat.add_zero] at hexit
      have h1 : List.range 1 = [0] := rfl
      simp [paginateAux, hexit, h1]
  | succ n ih =>
    intro i0 cursor acc sent fuel hfuel hmid hexit
    match fuel, hfuel with
    | f + 1, hfuel =>
      obtain ⟨t, ht⟩ : ∃ t, pageContinue (pages i0) = some t := by
        cases hpc : pageContinue (pages i0) with
        | none =>
          have h0 := hmid 0 (Nat.succ_pos n)
          rw [Nat.add_zero] at h0
          exact absurd hpc h0
        | some t => exact ⟨t, rfl⟩
      have hrec := ih (i0 + 1) (some t) (acc ++ (pages i0).items)
        (sent ++ [cursor]) f (by omega)
        (fun k hk => by
          rw [show i0 + 1 + k = i0 + (k + 1) from by omega]
          exact hmid (k + 1) (by omega))
        (by
          rw [show i0 + 1 + n = i0 + (n + 1) from by omega]
          exact hexit)
      have hfun1 : (fun k => (pages (i0 + 1 + k)).items)
          = (fun k => (pages (i0 + (k + 1))).items) := by
        funext k
        rw [show i0 + 1 + k = i0 + (k + 1) from by omega]
      have hfun2 : (fun k => pageContinue (pages (i0 + 1 + k)))
          = (fun k => pageContinue (pages (i0 + (k + 1)))) := by
        funext k
        rw [show i0 + 1 + k = i0 + (k + 1) from by omega]
      simp only [paginateAux, ht]
      rw [hrec, hfun1, hfun2]
      conv_rhs => rw [range_succ_flatMap, range_succ_map]
      simp [ht]

/-- If every page continues (present, non-empty cursor), the loop never
exits: every fuel is exhausted. -/
theorem paginateAux_diverge {α : Type} (pages : Nat → Page α)
    (h : ∀ i, pageContinue (pages i) ≠ none) :
    ∀ (fuel i0 : Nat) (cursor : Option String) (acc : List α)
      (sent : List (Option String)),
      paginateAux (fun i => .ok (pages i)) fuel i0 cursor acc sent
        = .diverge := by
  intro fuel
  induction fuel with
  | zero => intro i0 cursor acc sent; rfl
  | succ f ih =>
    intro i0 cursor acc sent
    obtain ⟨t, ht⟩ : ∃ t, pageContinue (pages i0) = some t := by
      cases hpc : pageContinue (pages i0) with
      | none => exact absurd hpc (h i0)
      | some t => exact ⟨t, rfl⟩
    simp only [paginateAux, ht]
    exact ih (i0 + 1) (some t) (acc ++ (pages i0).items) (sent ++ [cursor])

/-- If some reachable page exits, the loop terminates once given enough
fuel. -/
theorem paginateAux_exit {α : Type} (pages : Nat → Page α) :
    ∀ (n i0 : Nat) (cursor : Option String) (acc : List α)
      (sent : List (Option String)) (fuel : Nat),
      pageContinue (pages (i0 + n)) = none → n + 1 ≤ fuel →
      paginateAux (fun i => .ok (pages i)) fuel i0 cursor acc sent
        ≠ .diverge := by
  intro n
  induction n with
  | zero =>
    intro i0 cursor acc sent fuel hexit hfuel
    match fuel, hfuel with
    | f + 1, _ =>
      rw [Nat.add_zero] at hexit
      simp [paginateAux, hexit]
  | succ n ih =>
    intro i0 cursor acc sent fuel hexit hfuel
    match fuel, hfuel with
    | f + 1, hfuel =>
      cases hpc : pageContinue (pages i0) with
      | none => simp [paginateAux, hpc]
      | some t =>
        simp only [paginateAux, hpc]
        exact ih (i0 + 1) (some t) (acc ++ (pages i0).items)
          (sent ++ [cursor]) f
          (by rw [show i0 + 1 + n = i0 + (n + 1) from by omega]; exact hexit)
          (by omega)

/-! ## Claim C1 — participant duration -/

/-- C1 counterexample: when `leave_time` precedes `join_time` the code's
`int(total_seconds / 60)` truncates toward zero, so on the claim's example
pair reversed (join `2024-01-01T10:45:30Z`, leave `2024-01-01T10:00:00Z`,
−45.5 minutes) it yields −45 while floor yields −46: the floor semantics
does not hold for every timestamp pair. -/
theorem duration_floor_counterexample :
    calculate_participant_duration exampleLeave exampleJoin
        ≠ Int.fdiv (exampleJoin - exampleLeave) 60 ∧
    calculate_participant_duration exampleLeave exampleJoin = -45 ∧
    Int.fdiv (exampleJoin - exampleLeave) 60 = -46 := by decide

/-- C1 (amended): the per-participant duration is the truncation toward
zero of `(leaveTime − joinTime) in seconds / 60`; this agrees with the
floor for every pair with `joinTime ≤ leaveTime` (in particular the spec's
example yields 45), but not when `leaveTime` precedes `joinTime`. -/
theorem duration_truncates (join_time leave_time : Int)
    (h : join_time ≤ leave_time) :
    calculate_participant_duration join_time leave_time
        = Int.tdiv (leave_time - join_time) 60 ∧
    calculate_participant_duration join_time leave_time
        = Int.fdiv (leave_time - join_time) 60 ∧
    calculate_participant_duration exampleJoin exampleLeave = 45 := by
  refine ⟨rfl, ?_, by decide⟩
  unfold calculate_participant_duration
  rw [Int.tdiv_eq_ediv (by omega) (by norm_num),
    Int.fdiv_eq_ediv _ (by norm_num)]

theorem duration_truncates_witness :
    (0 : Int) ≤ 2730 ∧
    (calculate_participant_duration 0 2730 = Int.tdiv (2730 - 0) 60 ∧
      calculate_participant_duration 0 2730 = Int.fdiv (2730 - 0) 60 ∧
      calculate_participant_duration exampleJoin exampleLeave = 45) :=
  ⟨by decide, duration_truncates 0 2730 (by decide)⟩

/-! ## Claim C3 — cache round trip -/

/-- C3: a `load_cached_token` immediately after
`save_token_to_cache tok ttl` (same current time) returns `tok` iff
`ttl > 0`, and returns nothing for `ttl ≤ 0`, when no cache exists, or
whenever the stored expiry is at or before the current time; the saved
record's expiry is `now + ttl`. -/
theorem cache_load_after_save (tok : String) (ttl now exp : Int) :
    (0 < ttl →
      load_cached_token (save_token_to_cache tok ttl now) now
        = .ok (some tok)) ∧
    (ttl ≤ 0 →
      load_cached_token (save_token_to_cache tok ttl now) now = .ok none) ∧
    load_cached_token .absent now = .ok none ∧
    (exp ≤ now → load_cached_token (.valid tok exp) now = .ok none) ∧
    save_token_to_cache tok ttl now = .valid tok (now + ttl) := by
  refine ⟨fun h => ?_, fun h => ?_, rfl, fun h => ?_, rfl⟩
  · simp only [save_token_to_cache, load_cached_token]
    rw [if_pos (by omega)]
  · simp only [save_token_to_cache, load_cached_token]
    rw [if_neg (by omega)]
  · simp only [load_cached_token]
    rw [if_neg (by omega)]

theorem cache_load_after_save_witness :
    (0 : Int) < 10 ∧ (0 : Int) ≤ 0 ∧
    load_cached_token (save_token_to_cache "tok" 10 0) 0 = .ok (some "tok") ∧
    load_cached_token (save_token_to_cache "tok" 0 0) 0 = .ok none ∧
    load_cached_token .absent 0 = .ok none ∧
    load_cached_token (.valid "tok" 0) 0 = .ok none :=
  ⟨by decide, by decide,
    (cache_load_after_save "tok" 10 0 0).1 (by decide),
    (cache_load_after_save "tok" 0 0 0).2.1 (by decide),
    (cache_load_after_save "tok" 10 0 0).2.2.1,
    (cache_load_after_save "tok" 10 0 0).2.2.2.1 (by decide)⟩

/-! ## Claim C5 — corrupt cache file -/

/-- C5 counterexample: `load_cached_token` has no exception handler (lines
47-55): on a cache file that exists but fails to parse it raises rather
than returning `None`. -/
theorem corrupt_cache_counterexample :
    load_cached_token .corrupt 0 ≠ .ok none ∧
    load_cached_token .corrupt 0 = .error .parseError := by decide

/-- C5 (amended): a cache file that exists but is unreadable or corrupt is
NOT treated as a cache miss: `load_cached_token` raises the uncaught parse
error, and `get_access_token` propagates it instead of proceeding to a
fresh authentication (the run aborts). -/
theorem corrupt_cache_fatal (now : Int) (oauth : Except Unit OAuthResponse) :
    load_cached_token .corrupt now = .error .parseError ∧
    get_access_token oauth now .corrupt = .error .cacheCorrupt :=
  ⟨rfl, rfl⟩

/-! ## Claim C6 — authenticator idempotence -/

/-- C6 counterexample: `if cached_token:` (line 69) tests Python
truthiness, so if the provider returns the empty string as token, the
second `get_access_token` call finds a valid (unexpired) cached token yet
performs a second network exchange — 2 network authentication calls within
the validity window, not 1. -/
theorem auth_idempotence_counterexample :
    get_access_token_twice (.ok ⟨"", 3600⟩) (.ok ⟨"", 3600⟩) 0 0 .absent
      = .ok ("", "", .valid "" 3600, 2) := by decide

/-- C6 (amended): provided the exchanged token is non-empty, two
`get_access_token` calls within the token's validity window perform
exactly one network authentication call; when a valid non-empty cached
token exists the function returns it with no network call and no cache
write, and only on a cache miss does it perform the OAuth exchange
followed by a cache write. -/
theorem auth_idempotent (tok : String) (ttl t1 t2 exp now : Int)
    (oauth2 oauth3 : Except Unit OAuthResponse)
    (htok : tok.isEmpty = false) (h2 : t2 < t1 + ttl) (h3 : now < exp) :
    get_access_token_twice (.ok ⟨tok, ttl⟩) oauth2 t1 t2 .absent
      = .ok (tok, tok, .valid tok (t1 + ttl), 1) ∧
    get_access_token oauth3 now (.valid tok exp)
      = .ok (tok, .valid tok exp, 0) := by
  constructor
  · simp [get_access_token_twice, get_access_token, load_cached_token,
      save_token_to_cache, truthyToken, htok, h2]
  · simp [get_access_token, load_cached_token, truthyToken, htok, h3]

theorem auth_idempotent_witness :
    ("tok" : String).isEmpty = false ∧ (5 : Int) < 0 + 3600 ∧ (0 : Int) < 100 ∧
    (get_access_token_twice (.ok ⟨"tok", 3600⟩) (.error ()) 0 5 .absent
        = .ok ("tok", "tok", .valid "tok" (0 + 3600), 1) ∧
      get_access_token (.error ()) 0 (.valid "tok" 100)
        = .ok ("tok", .valid "tok" 100, 0)) :=
  ⟨by decide, by decide, by decide,
    auth_idempotent "tok" 3600 0 5 100 0 (.error ()) (.error ())
      (by decide) (by decide) (by decide)⟩

/-! ## Claim C10 — missing email field -/

/-- C10: a participant record lacking the email field yields a summary
whose email is the literal `"N/A"`, with name and duration produced as for
any other participant. -/
theorem missing_email_na (p : Participant) (h : p.email = none) :
    participantSummary p =
      { name := p.name
        email := "N/A"
        duration :=
          toString (calculate_participant_duration p.join_time p.leave_time)
            ++ " minutes" } := by
  simp [participantSummary, h]

theorem missing_email_na_witness :
    (⟨"Alice", none, 0, 2730⟩ : Participant).email = none ∧
    participantSummary ⟨"Alice", none, 0, 2730⟩
      = ⟨"Alice", "N/A", "45 minutes"⟩ := by
  refine ⟨rfl, ?_⟩
  rw [missing_email_na ⟨"Alice", none, 0, 2730⟩ rfl]
  decide

/-! ## Claim C2 — failure asymmetry between the two list calls -/

/-- C2: a request failure inside the meeting-listing loop re-raises
(`raise Exception("Failed to fetch meetings")`, line 154), discarding the
already-accumulated pages, whereas the participant-listing loop catches
the failure and returns `[]` (line 181), so the summary for that meeting
has empty participants and the other meetings are still summarized. -/
theorem fetch_failure_asymmetry (P1 : Page Meeting) (Q1 QB : Page Participant)
    (c : String) (mA mB : Meeting) (fuel : Nat)
    (hc : c ≠ "") (hP1 : P1.next_page_token = some c)
    (hQ1 : Q1.next_page_token = some c) (hQB : QB.next_page_token = none)
    (hab : mB.id ≠ mA.id) (hfuel : 2 ≤ fuel) :
    get_meetings (fun i => if i = 0 then .ok P1 else .error ()) fuel
      = .failed [none, some c] ∧
    get_meeting_participants (fun i => if i = 0 then .ok Q1 else .error ())
        fuel
      = .ok [] [none, some c] ∧
    summarize_meetings
      (fun id => if id = mA.id
        then (fun i => if i = 0 then .ok Q1 else .error ())
        else (fun _ => .ok QB)) fuel [mA, mB]
      = some [summaryOf mA [], summaryOf mB QB.items] := by
  obtain ⟨f, rfl⟩ : ∃ f, fuel = f + 2 := ⟨fuel - 2, by omega⟩
  have hpcQ : pageContinue Q1 = some c := by simp [pageContinue, hQ1, hc]
  have hpcB : pageContinue QB = none := by simp [pageContinue, hQB]
  have h1 : get_meetings (fun i => if i = 0 then .ok P1 else .error ())
      (f + 2) = .failed [none, some c] := by
    have hpcP : pageContinue P1 = some c := by simp [pageContinue, hP1, hc]
    simp [get_meetings, paginate, paginateAux, hpcP]
  have h2 : get_meeting_participants
      (fun i => if i = 0 then .ok Q1 else .error ()) (f + 2)
      = .ok [] [none, some c] := by
    simp [get_meeting_participants, paginate, paginateAux, hpcQ]
  have hB : get_meeting_participants (fun _ => .ok QB) (f + 2)
      = .ok QB.items [none] := by
    simp [get_meeting_participants, paginate, paginateAux, hpcB]
  refine ⟨h1, h2, ?_⟩
  simp [summarize_meetings, hab, h2, hB]

theorem fetch_failure_asymmetry_witness :
    ("c" : String) ≠ "" ∧
    (Page.mk ([] : List Meeting) (some "c")).next_page_token = some "c" ∧
    (Page.mk ([] : List Participant) (some "c")).next_page_token = some "c" ∧
    (Page.mk [Participant.mk "Bob" none 0 60] none).next_page_token = none ∧
    ("B" : String) ≠ "A" ∧ (2 : Nat) ≤ 2 ∧
    (get_meetings (fun i => if i = 0 then .ok ⟨[], some "c"⟩ else .error ()) 2
        = .failed [none, some "c"] ∧
      get_meeting_participants
          (fun i => if i = 0 then .ok ⟨[], some "c"⟩ else .error ()) 2
        = .ok [] [none, some "c"] ∧
      summarize_meetings
        (fun id => if id = (Meeting.mk "A" "tA" 0 30).id
          then (fun i => if i = 0 then .ok ⟨[], some "c"⟩ else .error ())
          else (fun _ => .ok ⟨[Participant.mk "Bob" none 0 60], none⟩)) 2
        [Meeting.mk "A" "tA" 0 30, Meeting.mk "B" "tB" 100 45]
        = some [summaryOf (Meeting.mk "A" "tA" 0 30) [],
            summaryOf (Meeting.mk "B" "tB" 100 45)
              [Participant.mk "Bob" none 0 60]]) :=
  ⟨by decide, rfl, rfl, rfl, by decide, by decide,
    fetch_failure_asymmetry ⟨[], some "c"⟩ ⟨[], some "c"⟩
      ⟨[Participant.mk "Bob" none 0 60], none⟩ "c"
      (Meeting.mk "A" "tA" 0 30) (Meeting.mk "B" "tB" 100 45) 2
      (by decide) rfl rfl rfl (by decide) (by decide)⟩

/-! ## Claim C4 — cursor pagination -/

/-- Running `paginate` against an all-successful page sequence whose first
absent-or-empty cursor is at page `n`: items are the concatenation of
pages `0..n` in encounter order, and the requests issued carry the cursors
`none, pageContinue (pages 0), …, pageContinue (pages (n-1))`. -/
theorem paginate_run {α : Type} (pages : Nat → Page α) (n fuel : Nat)
    (hmid : ∀ k, k < n → pageContinue (pages k) ≠ none)
    (hexit : pageContinue (pages n) = none) (hfuel : n + 1 ≤ fuel) :
    paginate (fun i => .ok (pages i)) fuel
      = .ok ((List.range (n + 1)).flatMap (fun k => (pages k).items))
          (none :: (List.range n).map (fun k => pageContinue (pages k))) := by
  have e1 : (fun k => (pages (0 + k)).items) = (fun k => (pages k).items) := by
    funext k; rw [Nat.zero_add]
  have e2 : (fun k => pageContinue (pages (0 + k)))
      = (fun k => pageContinue (pages k)) := by
    funext k; rw [Nat.zero_add]
  have h := paginateAux_run pages n 0 none [] [] fuel hfuel
    (fun k hk => by rw [Nat.zero_add]; exact hmid k hk)
    (by rw [Nat.zero_add]; exact hexit)
  rw [paginate, h, e1, e2]
  simp

/-- C4: for pages `[P1 (cursor c1), P2 (cursor c2), P3 (no/empty cursor)]`
both list variants return `P1.items ++ P2.items ++ P3.items` in order,
issuing exactly 3 requests with cursor parameters `[none, c1, c2]`; and in
general, against any all-successful page sequence, the fetch stops at the
first page whose cursor is absent or empty, returning all items in
encounter order with the cursors of the earlier pages as the successive
request parameters. -/
theorem pagination_three_pages (P1 P2 P3 : Page Meeting)
    (Q1 Q2 Q3 : Page Participant) (c1 c2 : String) (fuel : Nat)
    (hc1 : c1 ≠ "") (hc2 : c2 ≠ "")
    (h1 : P1.next_page_token = some c1) (h2 : P2.next_page_token = some c2)
    (h3 : P3.next_page_token = none ∨ P3.next_page_token = some "")
    (g1 : Q1.next_page_token = some c1) (g2 : Q2.next_page_token = some c2)
    (g3 : Q3.next_page_token = none ∨ Q3.next_page_token = some "")
    (hfuel : 3 ≤ fuel) :
    get_meetings
        (fun i => if i = 0 then .ok P1 else if i = 1 then .ok P2 else .ok P3)
        fuel
      = .ok (P1.items ++ P2.items ++ P3.items) [none, some c1, some c2] ∧
    get_meeting_participants
        (fun i => if i = 0 then .ok Q1 else if i = 1 then .ok Q2 else .ok Q3)
        fuel
      = .ok (Q1.items ++ Q2.items ++ Q3.items) [none, some c1, some c2] ∧
    (∀ (pagesM : Nat → Page Meeting) (n fl : Nat),
      (∀ k, k < n → pageContinue (pagesM k) ≠ none) →
      pageContinue (pagesM n) = none → n + 1 ≤ fl →
      get_meetings (fun i => .ok (pagesM i)) fl
        = .ok ((List.range (n + 1)).flatMap (fun k => (pagesM k).items))
            (none :: (List.range n).map (fun k => pageContinue (pagesM k)))) ∧
    (∀ (pagesP : Nat → Page Participant) (n fl : Nat),
      (∀ k, k < n → pageContinue (pagesP k) ≠ none) →
      pageContinue (pagesP n) = none → n + 1 ≤ fl →
      get_meeting_participants (fun i => .ok (pagesP i)) fl
        = .ok ((List.range (n + 1)).flatMap (fun k => (pagesP k).items))
            (none :: (List.range n).map (fun k => pageContinue (pagesP k)))) := by
  obtain ⟨f, rfl⟩ : ∃ f, fuel = f + 3 := ⟨fuel - 3, by omega⟩
  have hpc1 : pageContinue P1 = some c1 := by simp [pageContinue, h1, hc1]
  have hpc2 : pageContinue P2 = some c2 := by simp [pageContinue, h2, hc2]
  have hpc3 : pageContinue P3 = none := by
    rcases h3 with h | h <;> simp [pageContinue, h]
  have gpc1 : pageContinue Q1 = some c1 := by simp [pageContinue, g1, hc1]
  have gpc2 : pageContinue Q2 = some c2 := by simp [pageContinue, g2, hc2]
  have gpc3 : pageContinue Q3 = none := by
    rcases g3 with h | h <;> simp [pageContinue, h]
  refine ⟨?_, ?_, ?_, ?_⟩
  · simp [get_meetings, paginate, paginateAux, hpc1, hpc2, hpc3]
  · simp [get_meeting_participants, paginate, paginateAux, gpc1, gpc2, gpc3]
  · intro pagesM n fl hmid hexit hfl
    rw [get_meetings, paginate_run pagesM n fl hmid hexit hfl]
  · intro pagesP n fl hmid hexit hfl
    rw [get_meeting_participants,
      paginate_run pagesP n fl hmid hexit hfl]

theorem pagination_three_pages_witness :
    ("c1" : String) ≠ "" ∧ ("c2" : String) ≠ "" ∧ (3 : Nat) ≤ 3 ∧
    get_meetings
        (fun i => if i = 0 then .ok ⟨[Meeting.mk "m1" "t1" 0 30], some "c1"⟩
          else if i = 1 then .ok ⟨[Meeting.mk "m2" "t2" 50 60], some "c2"⟩
          else .ok ⟨[Meeting.mk "m3" "t3" 90 15], none⟩) 3
      = .ok [Meeting.mk "m1" "t1" 0 30, Meeting.mk "m2" "t2" 50 60,
          Meeting.mk "m3" "t3" 90 15]
          [none, some "c1", some "c2"] ∧
    get_meeting_participants
        (fun i => if i = 0 then .ok ⟨[Participant.mk "a" none 0 60], some "c1"⟩
          else if i = 1 then .ok ⟨[Participant.mk "b" none 0 120], some "c2"⟩
          else .ok ⟨[Participant.mk "d" none 0 180], none⟩) 3
      = .ok [Participant.mk "a" none 0 60, Participant.mk "b" none 0 120,
          Participant.mk "d" none 0 180]
          [none, some "c1", some "c2"] ∧
    get_meetings (fun _ => .ok ⟨[], none⟩) 1 = .ok [] [none] ∧
    get_meeting_participants
        (fun _ => .ok (⟨[], none⟩ : Page Participant)) 1
      = .ok [] [none] := by
  have h := pagination_three_pages
    ⟨[Meeting.mk "m1" "t1" 0 30], some "c1"⟩
    ⟨[Meeting.mk "m2" "t2" 50 60], some "c2"⟩
    ⟨[Meeting.mk "m3" "t3" 90 15], none⟩
    ⟨[Participant.mk "a" none 0 60], some "c1"⟩
    ⟨[Participant.mk "b" none 0 120], some "c2"⟩
    ⟨[Participant.mk "d" none 0 180], none⟩
    "c1" "c2" 3 (by decide) (by decide) rfl rfl (Or.inl rfl)
    rfl rfl (Or.inl rfl) (by decide)
  exact ⟨by decide, by decide, by decide, h.1, h.2.1,
    h.2.2.1 (fun _ => ⟨[], none⟩) 0 1
      (fun k hk => absurd hk (by omega)) rfl (by omega),
    h.2.2.2 (fun _ => ⟨[], none⟩) 0 1
      (fun k hk => absurd hk (by omega)) rfl (by omega)⟩

/-! ## Claim C9 — (non-)termination of the pagination loops -/

/-- The function `get_meeting_participants` only transforms the `failed` outcome of the
underlying loop, so it exhausts the fuel exactly when the loop does. -/
theorem get_meeting_participants_diverge_iff
    (server : Nat → Except Unit (Page Participant)) (fuel : Nat) :
    get_meeting_participants server fuel = .diverge
      ↔ paginate server fuel = .diverge := by
  unfold get_meeting_participants
  cases hp : paginate server fuel <;> simp

/-- C9: against an all-successful server, the `while True:` loops of
`get_meetings` and `get_meeting_participants` terminate iff some page has
an absent or empty `next_page_token` (`pageContinue _ = none`); with a
non-empty cursor on every page, no amount of fuel suffices — the loop
never terminates (there is no bound on the number of requests). -/
theorem pagination_termination (pm : Nat → Page Meeting)
    (pp : Nat → Page Participant) :
    ((∃ fuel, get_meetings (fun i => .ok (pm i)) fuel ≠ .diverge)
      ↔ (∃ i, pageContinue (pm i) = none)) ∧
    ((∃ fuel, get_meeting_participants (fun i => .ok (pp i)) fuel ≠ .diverge)
      ↔ (∃ i, pageContinue (pp i) = none)) := by
  constructor
  · constructor
    · intro ⟨fuel, hf⟩
      by_contra hno
      push_neg at hno
      exact hf (paginateAux_diverge pm hno fuel 0 none [] [])
    · intro ⟨i, hi⟩
      refine ⟨i + 1, ?_⟩
      have := paginateAux_exit pm i 0 none [] [] (i + 1)
        (by rw [Nat.zero_add]; exact hi) (by omega)
      exact this
  · constructor
    · intro ⟨fuel, hf⟩
      by_contra hno
      push_neg at hno
      refine hf ?_
      rw [get_meeting_participants_diverge_iff]
      exact paginateAux_diverge pp hno fuel 0 none [] []
    · intro ⟨i, hi⟩
      refine ⟨i + 1, fun hcon => ?_⟩
      have hd := (get_meeting_participants_diverge_iff
        (fun i => .ok (pp i)) (i + 1)).mp hcon
      exact paginateAux_exit pp i 0 none [] [] (i + 1)
        (by rw [Nat.zero_add]; exact hi) (by omega) hd

/-! ## Claim C8 — summarizer shape -/

/-- C8: when every meeting's participant fetch terminates (returning
`fetched m`), the summarizer produces exactly one `MeetingSummary` per
input meeting, in input order; each summary has
`end_time = start_time + 60 * duration` (seconds, i.e. `startTime +
scheduledDuration` minutes) and its participant sequence is the provider's
list mapped in order through `participantSummary`. -/
theorem summarizer_shape
    (pserver : String → Nat → Except Unit (Page Participant)) (fuel : Nat)
    (meetings : List Meeting) (fetched : Meeting → List Participant)
    (hfetch : ∀ m ∈ meetings, ∃ s,
      get_meeting_participants (pserver m.id) fuel = .ok (fetched m) s) :
    summarize_meetings pserver fuel meetings
      = some (meetings.map (fun m => summaryOf m (fetched m))) ∧
    (meetings.map (fun m => summaryOf m (fetched m))).length
      = meetings.length ∧
    ∀ m ∈ meetings,
      (summaryOf m (fetched m)).end_time = m.start_time + 60 * m.duration ∧
      (summaryOf m (fetched m)).topic = m.topic ∧
      (summaryOf m (fetched m)).participants
        = (fetched m).map participantSummary := by
  have hmain : ∀ (ms : List Meeting),
      (∀ m ∈ ms, ∃ s,
        get_meeting_participants (pserver m.id) fuel = .ok (fetched m) s) →
      summarize_meetings pserver fuel ms
        = some (ms.map (fun m => summaryOf m (fetched m))) := by
    intro ms
    induction ms with
    | nil => intro _; rfl
    | cons m rest ih =>
      intro h
      obtain ⟨s, hs⟩ := h m (by simp)
      have hrest := ih (fun m' hm' => h m' (by simp [hm']))
      simp [summarize_meetings, hs, hrest]
  exact ⟨hmain meetings hfetch, by simp, fun m _ => ⟨rfl, rfl, rfl⟩⟩

theorem summarizer_shape_witness :
    (∀ m ∈ [Meeting.mk "A" "tA" 0 30, Meeting.mk "B" "tB" 600 45], ∃ s,
      get_meeting_participants
          ((fun _ => fun _ => .ok ⟨[Participant.mk "a" none 0 2730], none⟩)
            (Meeting.id m)) 1
        = .ok ((fun _ => [Participant.mk "a" none 0 2730]) m) s) ∧
    (summarize_meetings
        (fun _ => fun _ => .ok ⟨[Participant.mk "a" none 0 2730], none⟩) 1
        [Meeting.mk "A" "tA" 0 30, Meeting.mk "B" "tB" 600 45]
      = some [summaryOf (Meeting.mk "A" "tA" 0 30)
            [Participant.mk "a" none 0 2730],
          summaryOf (Meeting.mk "B" "tB" 600 45)
            [Participant.mk "a" none 0 2730]] ∧
      (summaryOf (Meeting.mk "A" "tA" 0 30)
          [Participant.mk "a" none 0 2730]).end_time = 0 + 60 * 30 ∧
      (summaryOf (Meeting.mk "B" "tB" 600 45)
          [Participant.mk "a" none 0 2730]).end_time = 600 + 60 * 45) := by
  have hf : ∀ m ∈ [Meeting.mk "A" "tA" 0 30, Meeting.mk "B" "tB" 600 45],
      ∃ s, get_meeting_participants
          ((fun _ => fun _ =>
            Except.ok (⟨[Participant.mk "a" none 0 2730], none⟩ :
              Page Participant)) (Meeting.id m)) 1
        = .ok ((fun _ => [Participant.mk "a" none 0 2730]) m) s := by
    intro m _
    refine ⟨[none], ?_⟩
    show get_meeting_participants
        (fun _ => Except.ok
          (⟨[Participant.mk "a" none 0 2730], none⟩ : Page Participant)) 1
      = .ok [Participant.mk "a" none 0 2730] [none]
    decide
  have h := summarizer_shape
    (fun _ => fun _ => .ok ⟨[Participant.mk "a" none 0 2730], none⟩) 1
    [Meeting.mk "A" "tA" 0 30, Meeting.mk "B" "tB" 600 45]
    (fun _ => [Participant.mk "a" none 0 2730]) hf
  exact ⟨hf, h.1,
    (h.2.2 (Meeting.mk "A" "tA" 0 30) (by simp)).1,
    (h.2.2 (Meeting.mk "B" "tB" 600 45) (by simp)).1⟩

/-! ## Claim C7 — HTTP retry policy -/

/-- The retry loop makes at most `retriesLeft + 1` attempts beyond the
`i` already made. -/
theorem sessionRequestAux_attempts_le (transport : Nat → Nat) :
    ∀ (r i : Nat), (sessionRequestAux transport r i).1 ≤ i + r + 1 := by
  intro r
  induction r with
  | zero =>
    intro i
    simp [sessionRequestAux]
  | succ r ih =>
    intro i
    by_cases hf : transport i ∈ status_forcelist
    · rw [show sessionRequestAux transport (r + 1) i
          = sessionRequestAux transport r (i + 1) from by
        simp [sessionRequestAux, hf]]
      exact le_trans (ih (i + 1)) (by omega)
    · rw [show sessionRequestAux transport (r + 1) i
          = (i + 1, transport i) from by
        simp [sessionRequestAux, hf]]
      simp

/-- C7 counterexample: the meeting-listing page requests are issued with
plain `requests.get` (line 140), not through the retry-mounted `session`,
so against a transport answering 503, 503, 200 that call makes exactly 1
attempt and fails immediately — not 3 attempts and a success as the claim
asserts for every outbound HTTP call of the program.  (The same transport
through `session` does give 3 attempts and success.) -/
theorem retry_counterexample :
    meetings_request transport503 = (1, 503) ∧
    meetings_request transport503 ≠ (3, 200) ∧
    participants_request transport503 = (1, 503) ∧
    session_request transport503 = (3, 200) := by decide

/-- C7 (amended): the retry policy — up to 5 retries, backoff factor 0.1,
statuses {500, 502, 503, 504} only — is mounted only on the module-level
`session`, used by the OAuth token exchange and the user-identity lookup.
There, 503, 503, 200 yields exactly 3 attempts and success; 404 yields
exactly 1 attempt and an immediate failure; any first status outside the
forcelist is returned after exactly 1 attempt (not retried); and no
transport ever causes more than 6 attempts (1 + 5 retries).  The
meeting-listing and participant-listing page requests use `requests.get`
and always make exactly 1 attempt, whatever the status. -/
theorem retry_policy (t t2 : Nat → Nat) (h : t 0 ∉ status_forcelist) :
    session_request transport503 = (3, 200) ∧
    session_request (fun _ => 404) = (1, 404) ∧
    session_request t = (1, t 0) ∧
    (session_request t2).1 ≤ session_retry_total + 1 ∧
    meetings_request t2 = (1, t2 0) ∧
    participants_request t2 = (1, t2 0) ∧
    session_retry_total = 5 ∧ session_backoff_factor = 1 / 10 := by
  refine ⟨by decide, by decide, ?_, ?_, rfl, rfl, rfl, rfl⟩
  · simp [session_request, session_retry_total, sessionRequestAux, h]
  · have := sessionRequestAux_attempts_le t2 session_retry_total 0
    simpa [session_request] using this

theorem retry_policy_witness :
    (404 : Nat) ∉ status_forcelist ∧
    (session_request transport503 = (3, 200) ∧
      session_request (fun _ => 404) = (1, 404) ∧
      session_request (fun _ => 404) = (1, 404) ∧
      (session_request (fun _ => 503)).1 ≤ session_retry_total + 1 ∧
      meetings_request (fun _ => 503) = (1, 503) ∧
      participants_request (fun _ => 503) = (1, 503) ∧
      session_retry_total = 5 ∧ session_backoff_factor = 1 / 10) :=
  ⟨by decide, retry_policy (fun _ => 404) (fun _ => 503) (by decide)⟩
